import Mathlib

/-!
Verification of the adaptive crawl orchestration engine of the
`mouguu/twitter-crawler` repository (Reddit platform code), against its
natural-language specification.

Shallow embedding conventions:
- Python floats are modelled as rationals (`ℚ`); all delay arithmetic in the
  source is exact decimal multiplication, so no rounding behaviour is lost
  that the stated properties depend on.
- `time.time()` timestamps are passed explicitly as `ℚ` arguments to the
  operations that read the clock in the source.
- Python dict payloads are modelled as structures; a `.get(key)` access on a
  possibly-missing key is modelled with `Option`.
- Stateful methods become functions `State → ... → Result × State` (or just
  `State → State`).  Methods composed of several sequential source
  statements are embedded as compositions of one definition per statement
  group, each annotated with the source lines it embeds.

Source files embedded:
- `src/platforms/reddit/core/rate_limiter.py` (`SmartRateController`)
- `src/platforms/reddit/local_storage.py` (`LocalDataManager`)
- `src/platforms/reddit/enhanced_scraper.py` (orchestrator, keyword search,
  batch dedup filter, `scrape_post_with_comments`, `save_to_database`)
- `src/platforms/reddit/scraper.py` (`RedditScraper.scrape`,
  `_filter_existing_posts`)
- `src/platforms/reddit/post_scraper.py` (`RedditPostScraper.fetch_json`)
-/

/-! ## Rate controller (`core/rate_limiter.py`, class `SmartRateController`) -/

/-- State of `SmartRateController` (`rate_limiter.py` lines 14-26).
Timestamps are rationals fed in by the caller where the source calls
`time.time()`. -/
structure RateState where
  base_delay : ℚ
  current_delay : ℚ
  consecutive_429s : ℕ
  success_streak : ℕ
  last_429_time : ℚ
  total_requests : ℕ
  successful_requests : ℕ
  cooldown_mode : Bool
  cooldown_start_time : ℚ
  session_refresh_needed : Bool
  deriving Repr, DecidableEq

/-- The `__init__` state: base and current delay 2.5, everything else zero /
false (`rate_limiter.py` lines 14-26). -/
def RateState.init : RateState :=
  { base_delay := 5/2
    current_delay := 5/2
    consecutive_429s := 0
    success_streak := 0
    last_429_time := 0
    total_requests := 0
    successful_requests := 0
    cooldown_mode := false
    cooldown_start_time := 0
    session_refresh_needed := false }

/-- `SmartRateController.enter_cooldown_mode` (lines 87-93): a no-op when
already in cooldown, otherwise sets the flag, stamps the start time and
requests a session refresh. -/
def enter_cooldown_mode (t : ℚ) (s : RateState) : RateState :=
  if s.cooldown_mode then s
  else { s with cooldown_mode := true, cooldown_start_time := t,
                session_refresh_needed := true }

/-- `SmartRateController.exit_cooldown_mode` (lines 95-100): clears the
cooldown flag and the session-refresh flag when in cooldown. -/
def exit_cooldown_mode (s : RateState) : RateState :=
  if s.cooldown_mode then
    { s with cooldown_mode := false, session_refresh_needed := false }
  else s

/-- `record_success` lines 30-33: bump the request counters and the streak,
reset `consecutive_429s`. -/
def rsBump (s : RateState) : RateState :=
  { s with total_requests := s.total_requests + 1
           successful_requests := s.successful_requests + 1
           success_streak := s.success_streak + 1
           consecutive_429s := 0 }

/-- `record_success` lines 36-37: exit cooldown once the (already
incremented) streak reaches 3. -/
def rsExit (s : RateState) : RateState :=
  if s.cooldown_mode ∧ 3 ≤ s.success_streak then exit_cooldown_mode s else s

/-- `record_success` lines 40-41: decay the delay by 0.95 when the streak
exceeds 20 and the delay is above 1.5 (the guard tests the delay before
the multiplication). -/
def rsDecay (s : RateState) : RateState :=
  if 20 < s.success_streak ∧ (3/2 : ℚ) < s.current_delay then
    { s with current_delay := s.current_delay * (19/20) }
  else s

/-- `SmartRateController.record_success` (lines 28-41). -/
def record_success (s : RateState) : RateState :=
  rsDecay (rsExit (rsBump s))

/-- `record_429_error` lines 45-48: bump counters, reset the streak, stamp
the failure time. -/
def r429Bump (t : ℚ) (s : RateState) : RateState :=
  { s with total_requests := s.total_requests + 1
           consecutive_429s := s.consecutive_429s + 1
           success_streak := 0
           last_429_time := t }

/-- `record_429_error` lines 51-54: multiply the delay by 2.0 while the
(already incremented) failure count is ≤ 3, else by 1.5. -/
def r429Backoff (s : RateState) : RateState :=
  { s with current_delay :=
      if s.consecutive_429s ≤ 3 then s.current_delay * 2
      else s.current_delay * (3/2) }

/-- `record_429_error` line 57: clamp the delay at 30 seconds. -/
def r429Clamp (s : RateState) : RateState :=
  { s with current_delay := min 30 s.current_delay }

/-- `record_429_error` lines 60-61: enter cooldown from 2 consecutive 429s
on. -/
def r429Cooldown (t : ℚ) (s : RateState) : RateState :=
  if 2 ≤ s.consecutive_429s then enter_cooldown_mode t s else s

/-- `SmartRateController.record_429_error` (lines 43-61). -/
def record_429_error (t : ℚ) (s : RateState) : RateState :=
  r429Cooldown t (r429Clamp (r429Backoff (r429Bump t s)))

/-- `SmartRateController.record_other_error` (lines 63-68): bump the request
counter, reset the streak and multiply the delay by 1.1.  The source
applies no upper clamp here. -/
def record_other_error (s : RateState) : RateState :=
  { s with total_requests := s.total_requests + 1
           success_streak := 0
           current_delay := s.current_delay * (11/10) }

/-- `SmartRateController.get_delay` (lines 70-75): double the delay when a
429 was seen in the last 60 seconds, otherwise floor the delay at 1.5. -/
def get_delay (now : ℚ) (s : RateState) : ℚ :=
  if now - s.last_429_time < 60 then s.current_delay * 2
  else max (3/2) s.current_delay

/-- `SmartRateController.should_skip_strategy` (lines 77-79). -/
def should_skip_strategy (s : RateState) : Bool :=
  5 ≤ s.consecutive_429s

/-- One recorded request outcome; `err429` carries the `time.time()` value
the source stamps into `last_429_time`. -/
inductive RCEvent where
  | success : RCEvent
  | err429 : ℚ → RCEvent
  | otherError : RCEvent
  deriving Repr, DecidableEq

/-- Apply one recording call to the controller state. -/
def rcStep (s : RateState) (e : RCEvent) : RateState :=
  match e with
  | .success => record_success s
  | .err429 t => record_429_error t s
  | .otherError => record_other_error s

/-- Run a sequence of recording calls from a given state. -/
def rcRun (s : RateState) (evs : List RCEvent) : RateState :=
  evs.foldl rcStep s

-- Characterization lemmas used by the claims about the controller.

lemma exit_cooldown_mode_current_delay (s : RateState) :
    (exit_cooldown_mode s).current_delay = s.current_delay := by
  unfold exit_cooldown_mode; split <;> rfl

lemma enter_cooldown_mode_current_delay (t : ℚ) (s : RateState) :
    (enter_cooldown_mode t s).current_delay = s.current_delay := by
  unfold enter_cooldown_mode; split <;> rfl

lemma rsExit_current_delay (s : RateState) :
    (rsExit s).current_delay = s.current_delay := by
  unfold rsExit
  split
  · exact exit_cooldown_mode_current_delay s
  · rfl

lemma record_success_current_delay (s : RateState) :
    (record_success s).current_delay = s.current_delay ∨
      ((3/2 : ℚ) < s.current_delay ∧
        (record_success s).current_delay = s.current_delay * (19/20)) := by
  have hx : (rsExit (rsBump s)).current_delay = s.current_delay := by
    rw [rsExit_current_delay]; rfl
  unfold record_success rsDecay
  split_ifs with h
  · right
    refine ⟨?_, ?_⟩
    · have h2 := h.2
      rwa [hx] at h2
    · show (rsExit (rsBump s)).current_delay * (19/20) = s.current_delay * (19/20)
      rw [hx]
  · left
    exact hx

lemma record_429_error_current_delay (t : ℚ) (s : RateState) :
    (record_429_error t s).current_delay =
      min 30 (if s.consecutive_429s + 1 ≤ 3 then s.current_delay * 2
              else s.current_delay * (3/2)) := by
  unfold record_429_error r429Cooldown
  split
  · rw [enter_cooldown_mode_current_delay]
    rfl
  · rfl

lemma current_delay_lower_step (s : RateState) (e : RCEvent)
    (h : (57/40 : ℚ) ≤ s.current_delay) :
    (57/40 : ℚ) ≤ (rcStep s e).current_delay := by
  cases e with
  | success =>
    rcases record_success_current_delay s with hcd | ⟨hgt, hcd⟩
    · rw [rcStep, hcd]; exact h
    · rw [rcStep, hcd]; nlinarith
  | err429 t =>
    rw [rcStep, record_429_error_current_delay]
    refine le_min (by norm_num) ?_
    split <;> nlinarith
  | otherError =>
    show (57/40 : ℚ) ≤ s.current_delay * (11/10)
    nlinarith

lemma current_delay_upper_step (s : RateState) (e : RCEvent)
    (hne : e ≠ RCEvent.otherError)
    (hlo : (0:ℚ) ≤ s.current_delay) (h : s.current_delay ≤ 30) :
    (rcStep s e).current_delay ≤ 30 := by
  cases e with
  | success =>
    rcases record_success_current_delay s with hcd | ⟨hgt, hcd⟩
    · rw [rcStep, hcd]; exact h
    · rw [rcStep, hcd]; nlinarith
  | err429 t =>
    rw [rcStep, record_429_error_current_delay]
    exact min_le_left _ _
  | otherError => exact absurd rfl hne

lemma current_delay_lower_run (s : RateState) (evs : List RCEvent)
    (h : (57/40 : ℚ) ≤ s.current_delay) :
    (57/40 : ℚ) ≤ (rcRun s evs).current_delay := by
  induction evs generalizing s with
  | nil => exact h
  | cons e rest ih =>
    exact ih (rcStep s e) (current_delay_lower_step s e h)

lemma current_delay_upper_run (s : RateState) (evs : List RCEvent)
    (hno : RCEvent.otherError ∉ evs)
    (hlo : (57/40 : ℚ) ≤ s.current_delay) (h : s.current_delay ≤ 30) :
    (rcRun s evs).current_delay ≤ 30 := by
  induction evs generalizing s with
  | nil => exact h
  | cons e rest ih =>
    have hne : e ≠ RCEvent.otherError := fun he => hno (he ▸ List.mem_cons_self e rest)
    have hrest : RCEvent.otherError ∉ rest := fun hr => hno (List.mem_cons_of_mem e hr)
    exact ih (rcStep s e) hrest
      (current_delay_lower_step s e hlo)
      (current_delay_upper_step s e hne (le_trans (by norm_num) hlo) h)

/-- **C1** (amended). Over every sequence of `record_success` /
`record_429_error` / `record_other_error` calls from the initial state,
`current_delay` never drops below `0.95 × 1.5 = 1.425` (one decay factor
below the 1.5 floor), and as long as the sequence contains no
`record_other_error` call it also never exceeds the 30-second cap.  The
original claim's exact bounds fail: see `c1_counterexample`. -/
theorem c1_delay_bounds (evs : List RCEvent) :
    (57/40 : ℚ) ≤ (rcRun RateState.init evs).current_delay ∧
    (RCEvent.otherError ∉ evs → (rcRun RateState.init evs).current_delay ≤ 30) := by
  constructor
  · exact current_delay_lower_run RateState.init evs (by norm_num [RateState.init])
  · intro hno
    exact current_delay_upper_run RateState.init evs hno
      (by norm_num [RateState.init]) (by norm_num [RateState.init])

/-- Witness for `c1_delay_bounds` at a concrete event sequence. -/
theorem c1_delay_bounds_witness :
    (57/40 : ℚ) ≤ (rcRun RateState.init
        [RCEvent.success, RCEvent.err429 100, RCEvent.success]).current_delay ∧
    (rcRun RateState.init
        [RCEvent.success, RCEvent.err429 100, RCEvent.success]).current_delay ≤ 30 :=
  ⟨(c1_delay_bounds [RCEvent.success, RCEvent.err429 100, RCEvent.success]).1,
   (c1_delay_bounds [RCEvent.success, RCEvent.err429 100, RCEvent.success]).2
     (by decide)⟩

lemma rcRun_replicate_otherError (n : ℕ) (s : RateState) :
    (rcRun s (List.replicate n RCEvent.otherError)).current_delay =
      s.current_delay * (11/10)^n := by
  induction n generalizing s with
  | zero => simp [rcRun]
  | succ k ih =>
    rw [List.replicate_succ]
    show (rcRun (rcStep s RCEvent.otherError) (List.replicate k RCEvent.otherError)).current_delay = _
    rw [ih]
    show s.current_delay * (11/10) * (11/10)^k = s.current_delay * (11/10)^(k+1)
    ring

set_option maxRecDepth 40000 in
/-- **C1 counterexample.** The claimed invariant `current_delay ∈
[min_delay, max_delay] = [1.5, 30]` fails in both directions: 27
consecutive `record_other_error` calls push the delay above 30 (the 1.1
multiplication is never clamped), and 30 consecutive `record_success` calls
drag it below the 1.5 floor (the 0.95 decay is guarded by `delay > 1.5`
before, not after, the multiplication). -/
theorem c1_counterexample :
    30 < (rcRun RateState.init (List.replicate 27 RCEvent.otherError)).current_delay ∧
    (rcRun RateState.init (List.replicate 30 RCEvent.success)).current_delay < 3/2 := by
  constructor
  · rw [rcRun_replicate_otherError]
    show (30:ℚ) < (5/2) * (11/10)^27
    norm_num
  · norm_num [rcRun, List.replicate, List.foldl, rcStep, record_success, rsBump, rsExit,
      rsDecay, exit_cooldown_mode, RateState.init]

-- Cooldown dynamics lemmas for record_success.

lemma record_success_exit_case (s : RateState) (hc : s.cooldown_mode = true)
    (h3 : 3 ≤ s.success_streak + 1) :
    (record_success s).cooldown_mode = false ∧
    (record_success s).session_refresh_needed = false := by
  unfold record_success
  have hb : (rsBump s).cooldown_mode = true := hc
  have hbs : (rsBump s).success_streak = s.success_streak + 1 := rfl
  have hcond : (rsBump s).cooldown_mode = true ∧ 3 ≤ (rsBump s).success_streak :=
    ⟨hb, hbs ▸ h3⟩
  rw [rsExit, if_pos hcond, exit_cooldown_mode, if_pos hb]
  constructor
  · rw [rsDecay]; split <;> rfl
  · rw [rsDecay]; split <;> rfl

lemma record_success_stay_case (s : RateState)
    (h : ¬(s.cooldown_mode = true ∧ 3 ≤ s.success_streak + 1)) :
    (record_success s).cooldown_mode = s.cooldown_mode ∧
    (record_success s).session_refresh_needed = s.session_refresh_needed ∧
    (record_success s).success_streak = s.success_streak + 1 := by
  unfold record_success
  have hcond : ¬((rsBump s).cooldown_mode = true ∧ 3 ≤ (rsBump s).success_streak) := by
    simpa [rsBump] using h
  rw [rsExit, if_neg hcond]
  refine ⟨?_, ?_, ?_⟩ <;> · rw [rsDecay]; split <;> rfl

lemma three_successes_exit (s : RateState) (hc : s.cooldown_mode = true) :
    (record_success (record_success (record_success s))).cooldown_mode = false ∧
    (record_success (record_success (record_success s))).session_refresh_needed = false := by
  by_cases h1 : 3 ≤ s.success_streak + 1
  · obtain ⟨hcool, href⟩ := record_success_exit_case s hc h1
    have h2 : ¬((record_success s).cooldown_mode = true ∧
        3 ≤ (record_success s).success_streak + 1) := by simp [hcool]
    obtain ⟨hc2, hr2, _⟩ := record_success_stay_case (record_success s) h2
    have h3 : ¬((record_success (record_success s)).cooldown_mode = true ∧
        3 ≤ (record_success (record_success s)).success_streak + 1) := by
      simp [hc2, hcool]
    obtain ⟨hc3, hr3, _⟩ := record_success_stay_case (record_success (record_success s)) h3
    exact ⟨by rw [hc3, hc2, hcool], by rw [hr3, hr2, href]⟩
  · have h1n : ¬(s.cooldown_mode = true ∧ 3 ≤ s.success_streak + 1) := fun hh => h1 hh.2
    obtain ⟨hc1, hr1, hs1⟩ := record_success_stay_case s h1n
    have hc1t : (record_success s).cooldown_mode = true := by rw [hc1, hc]
    by_cases h2 : 3 ≤ (record_success s).success_streak + 1
    · obtain ⟨hcool, href⟩ := record_success_exit_case (record_success s) hc1t h2
      have h3 : ¬((record_success (record_success s)).cooldown_mode = true ∧
          3 ≤ (record_success (record_success s)).success_streak + 1) := by simp [hcool]
      obtain ⟨hc3, hr3, _⟩ := record_success_stay_case (record_success (record_success s)) h3
      exact ⟨by rw [hc3, hcool], by rw [hr3, href]⟩
    · have h2n : ¬((record_success s).cooldown_mode = true ∧
          3 ≤ (record_success s).success_streak + 1) := fun hh => h2 hh.2
      obtain ⟨hc2, hr2, hs2⟩ := record_success_stay_case (record_success s) h2n
      have hc2t : (record_success (record_success s)).cooldown_mode = true := by
        rw [hc2, hc1, hc]
      have h3 : 3 ≤ (record_success (record_success s)).success_streak + 1 := by
        rw [hs2, hs1]
        omega
      exact record_success_exit_case (record_success (record_success s)) hc2t h3

/-- **C7.** From the clean initial state, one `record_429_error` does not
enter cooldown but a second consecutive one does (`consecutive_429s ≥ 2`);
`enter_cooldown_mode` is idempotent (a no-op whenever already in cooldown);
and from any cooldown state, three consecutive `record_success` calls leave
cooldown and clear the session-refresh flag. -/
theorem c7_cooldown_entry_exit (t1 t2 u : ℚ) (s s2 : RateState)
    (hs : s.cooldown_mode = true) (hs2 : s2.cooldown_mode = true) :
    (rcRun RateState.init [RCEvent.err429 t1]).cooldown_mode = false ∧
    (rcRun RateState.init [RCEvent.err429 t1, RCEvent.err429 t2]).cooldown_mode = true ∧
    enter_cooldown_mode u s2 = s2 ∧
    (record_success (record_success (record_success s))).cooldown_mode = false ∧
    (record_success (record_success (record_success s))).session_refresh_needed = false := by
  refine ⟨?_, ?_, ?_, (three_successes_exit s hs).1, (three_successes_exit s hs).2⟩
  · norm_num [rcRun, rcStep, record_429_error, r429Bump, r429Backoff, r429Clamp,
      r429Cooldown, enter_cooldown_mode, RateState.init]
  · norm_num [rcRun, rcStep, record_429_error, r429Bump, r429Backoff, r429Clamp,
      r429Cooldown, enter_cooldown_mode, RateState.init]
  · rw [enter_cooldown_mode, if_pos hs2]

/-- Witness for `c7_cooldown_entry_exit` at a concrete cooldown state. -/
theorem c7_cooldown_entry_exit_witness :
    (rcRun RateState.init [RCEvent.err429 0]).cooldown_mode = false ∧
    (rcRun RateState.init [RCEvent.err429 0, RCEvent.err429 1]).cooldown_mode = true ∧
    enter_cooldown_mode 2 { RateState.init with cooldown_mode := true } =
      { RateState.init with cooldown_mode := true } ∧
    (record_success (record_success (record_success
      { RateState.init with cooldown_mode := true }))).cooldown_mode = false ∧
    (record_success (record_success (record_success
      { RateState.init with cooldown_mode := true }))).session_refresh_needed = false :=
  c7_cooldown_entry_exit 0 1 2 { RateState.init with cooldown_mode := true }
    { RateState.init with cooldown_mode := true } rfl rfl

/-! ## Local storage (`local_storage.py`, class `LocalDataManager`) -/

/-- A post payload dict as handed to `LocalDataManager.save_post`.  `id`
models `post_data.get('id')`: `none` when the key is missing.  The
remaining fields stand for the payload content that ends up in the JSON
file and CSV row. -/
structure PostPayload where
  id : Option String
  title : String
  author : String
  score : ℤ
  num_comments : ℕ
  created_utc : ℤ
  deriving Repr, DecidableEq

/-- Persistent-store state of one `LocalDataManager` session: the
`existing_ids` set, the JSON files written (`json/<id>.json`) and the CSV
rows appended. -/
structure Store where
  existing_ids : List String
  json_files : List (String × PostPayload)
  csv_rows : List String
  deriving Repr, DecidableEq

/-- `LocalDataManager._initialize_session` + `_load_existing_ids`
(`local_storage.py` lines 20-54).  `prev_run_ids` is the set of post ids
present on disk from previous runs; `_load_existing_ids` has an empty body
(`pass`, line 54), so the session starts with an empty `existing_ids` set
regardless of what previous runs persisted. -/
def initSession (prev_run_ids : List String) : Store :=
  { existing_ids := [], json_files := [], csv_rows := [] }

/-- `LocalDataManager.check_post_exists` (lines 106-108): membership in the
current session's `existing_ids`. -/
def check_post_exists (st : Store) (post_id : String) : Bool :=
  post_id ∈ st.existing_ids

/-- `LocalDataManager.save_post` (lines 56-74): reject a missing or falsy
(empty) id, reject an id already in `existing_ids`; otherwise write the
JSON file, append the CSV row, record the id and return `True`.  Both
rejections happen before any write, so they leave the store unchanged. -/
def save_post (st : Store) (p : PostPayload) : Bool × Store :=
  match p.id with
  | none => (false, st)
  | some pid =>
    if pid = "" then (false, st)
    else if pid ∈ st.existing_ids then (false, st)
    else (true,
      { existing_ids := pid :: st.existing_ids
        json_files := st.json_files ++ [(pid, p)]
        csv_rows := st.csv_rows ++ [pid] })

/-- One iteration of the `save_posts_batch` loop (lines 79-81): save the
post against the accumulated store, incrementing the counter when
`save_post` returned `True`. -/
def sbStep (acc : ℕ × Store) (p : PostPayload) : ℕ × Store :=
  (if (save_post acc.2 p).1 then acc.1 + 1 else acc.1, (save_post acc.2 p).2)

/-- `LocalDataManager.save_posts_batch` (lines 76-82): save each post in
order, counting the saves that returned `True`. -/
def save_posts_batch (st : Store) (posts : List PostPayload) : ℕ × Store :=
  posts.foldl sbStep (0, st)

lemma save_post_false_of_invalid (st : Store) (p : PostPayload)
    (h : p.id = none ∨ p.id = some "" ∨ ∃ pid, p.id = some pid ∧ pid ∈ st.existing_ids) :
    save_post st p = (false, st) := by
  rcases h with h | h | ⟨pid, hp, hm⟩
  · rw [save_post, h]
  · rw [save_post, h]
    simp
  · rw [save_post, hp]
    rcases eq_or_ne pid "" with he | he
    · simp [he]
    · simp [he, hm]

lemma save_post_mem_existing (st : Store) (p : PostPayload) (pid : String)
    (hp : p.id = some pid) (hne : pid ≠ "") (hm : pid ∉ st.existing_ids) :
    save_post st p = (true,
      { existing_ids := pid :: st.existing_ids
        json_files := st.json_files ++ [(pid, p)]
        csv_rows := st.csv_rows ++ [pid] }) := by
  rw [save_post, hp]
  simp [hne, hm]

/-- Number of newly recorded ids equals the growth of `existing_ids`. -/
lemma save_post_count_growth (st : Store) (p : PostPayload) :
    ((save_post st p).2).existing_ids.length =
      st.existing_ids.length + (if (save_post st p).1 then 1 else 0) := by
  rw [save_post]
  match hid : p.id with
  | none => simp
  | some pid =>
    rcases eq_or_ne pid "" with he | he
    · simp [he]
    · by_cases hm : pid ∈ st.existing_ids
      · simp [he, hm]
      · simp [he, hm]

lemma sbStep_fst (acc : ℕ × Store) (p : PostPayload) :
    (sbStep acc p).1 = acc.1 + (if (save_post acc.2 p).1 then 1 else 0) := by
  rw [sbStep]
  by_cases hb : (save_post acc.2 p).1 <;> simp [hb]

lemma sbStep_snd_len (acc : ℕ × Store) (p : PostPayload) :
    (sbStep acc p).2.existing_ids.length =
      acc.2.existing_ids.length + (if (save_post acc.2 p).1 then 1 else 0) := by
  rw [sbStep]
  exact save_post_count_growth acc.2 p

lemma batch_fold_growth (posts : List PostPayload) :
    ∀ acc : ℕ × Store,
      (posts.foldl sbStep acc).2.existing_ids.length + acc.1 =
        acc.2.existing_ids.length + (posts.foldl sbStep acc).1 := by
  induction posts with
  | nil => intro acc; simp [Nat.add_comm]
  | cons p rest ih =>
    intro acc
    rw [List.foldl_cons]
    have h1 := sbStep_fst acc p
    have h2 := sbStep_snd_len acc p
    have h3 := ih (sbStep acc p)
    omega

lemma save_posts_batch_growth (st : Store) (posts : List PostPayload) :
    (save_posts_batch st posts).2.existing_ids.length =
      st.existing_ids.length + (save_posts_batch st posts).1 := by
  have h := batch_fold_growth posts (0, st)
  rw [save_posts_batch]
  simpa using h

/-- **C10.** `save_post` is an idempotent no-op on duplicates and invalid
ids: a payload with a missing or empty id, or an id already in
`existing_ids`, returns `False` and leaves the whole store (id set, JSON
files, CSV rows) unchanged; an immediate second save of the same payload
always returns `False` and changes nothing; and `save_posts_batch` returns
exactly the number of posts newly recorded (the growth of the id set). -/
theorem c10_save_post_idempotent (st : Store) (p : PostPayload)
    (h : p.id = none ∨ p.id = some "" ∨ ∃ pid, p.id = some pid ∧ pid ∈ st.existing_ids) :
    save_post st p = (false, st) ∧
    (∀ st0 : Store, ∀ q : PostPayload,
        save_post (save_post st0 q).2 q = (false, (save_post st0 q).2)) ∧
    (∀ st0 : Store, ∀ posts : List PostPayload,
        (save_posts_batch st0 posts).2.existing_ids.length =
          st0.existing_ids.length + (save_posts_batch st0 posts).1) := by
  refine ⟨save_post_false_of_invalid st p h, ?_, ?_⟩
  · intro st0 q
    match hid : q.id with
    | none => exact save_post_false_of_invalid _ q (Or.inl hid)
    | some pid =>
      rcases eq_or_ne pid "" with he | he
      · exact save_post_false_of_invalid _ q (Or.inr (Or.inl (he ▸ hid)))
      · by_cases hm : pid ∈ st0.existing_ids
        · have h1 : save_post st0 q = (false, st0) :=
            save_post_false_of_invalid st0 q (Or.inr (Or.inr ⟨pid, hid, hm⟩))
          rw [h1]
          exact save_post_false_of_invalid st0 q (Or.inr (Or.inr ⟨pid, hid, hm⟩))
        · have h1 := save_post_mem_existing st0 q pid hid he hm
          rw [h1]
          refine save_post_false_of_invalid _ q (Or.inr (Or.inr ⟨pid, hid, ?_⟩))
          exact List.mem_cons_self pid _
  · intro st0 posts
    exact save_posts_batch_growth st0 posts

/-- Witness for `c10_save_post_idempotent` at a concrete duplicate id. -/
theorem c10_save_post_idempotent_witness :
    save_post { existing_ids := ["abc"], json_files := [], csv_rows := [] }
        { id := some "abc", title := "t", author := "a", score := 0,
          num_comments := 0, created_utc := 0 } =
      (false, { existing_ids := ["abc"], json_files := [], csv_rows := [] }) :=
  (c10_save_post_idempotent
    { existing_ids := ["abc"], json_files := [], csv_rows := [] }
    { id := some "abc", title := "t", author := "a", score := 0,
      num_comments := 0, created_utc := 0 }
    (Or.inr (Or.inr ⟨"abc", rfl, by decide⟩))).1

/-! ## Dedup filter (`enhanced_scraper.py` lines 479-499 and 309-324,
`scraper.py` lines 262-279) -/

/-- The batch slicing `post_urls_with_ids[i:i+batch_size]` for
`i in range(0, len, batch_size)`: successive chunks of size `bs`. -/
def chunksOf (bs : ℕ) : List α → List (List α)
  | [] => []
  | x :: xs =>
    if h : bs = 0 then []
    else (x :: xs).take bs :: chunksOf bs ((x :: xs).drop bs)
  termination_by l => l.length
  decreasing_by
    simp only [List.length_drop, List.length_cons]
    have : 0 < bs := Nat.pos_of_ne_zero h
    omega

/-- `EnhancedUofTScraper.check_posts_exist_batch` (lines 309-324): for each
id of the batch, keep it when the persistence collaborator's
`check_post_exists` answers true.  The collaborator's answer is abstracted
as `exists?`. -/
def check_posts_exist_batch (exists? : String → Bool) (post_ids : List String) :
    List String :=
  post_ids.filter exists?

/-- `EnhancedUofTScraper.filter_new_posts_batch` (lines 479-499): slice the
candidate list into batches, query the existence check per batch, and keep
the candidates whose id the store did not report as existing, in order.
`scraper.py` `_filter_existing_posts` (lines 262-279) is the same
algorithm.  The function only reads the store (through `exists?`); it
performs no writes. -/
def filter_new_posts_batch (exists? : String → Bool) (bs : ℕ)
    (post_urls_with_ids : List (String × String)) : List (String × String) :=
  (chunksOf bs post_urls_with_ids).foldl
    (fun new_posts batch =>
      let existing_ids := check_posts_exist_batch exists? (batch.map Prod.snd)
      new_posts ++ batch.filter (fun p => ¬ p.2 ∈ existing_ids)) []

lemma chunksOf_flatten_bounded (bs : ℕ) (hbs : bs ≠ 0) (n : ℕ) :
    ∀ l : List α, l.length ≤ n → (chunksOf bs l).flatten = l := by
  induction n with
  | zero =>
    intro l hl
    have hnil : l = [] := List.eq_nil_of_length_eq_zero (Nat.le_zero.mp hl)
    subst hnil
    simp [chunksOf]
  | succ k ih =>
    intro l hl
    match l with
    | [] => simp [chunksOf]
    | x :: xs =>
      rw [chunksOf, dif_neg hbs, List.flatten_cons, ih, List.take_append_drop]
      rw [List.length_drop, List.length_cons]
      have hpos : 0 < bs := Nat.pos_of_ne_zero hbs
      have := hl
      rw [List.length_cons] at this
      omega

lemma chunksOf_flatten (bs : ℕ) (hbs : bs ≠ 0) (l : List α) :
    (chunksOf bs l).flatten = l :=
  chunksOf_flatten_bounded bs hbs l.length l le_rfl

lemma batch_filter_eq (exists? : String → Bool) (batch : List (String × String)) :
    batch.filter (fun p => ¬ p.2 ∈ check_posts_exist_batch exists? (batch.map Prod.snd)) =
      batch.filter (fun p => ¬ exists? p.2) := by
  apply List.filter_congr
  intro p hp
  have hmem : p.2 ∈ batch.map Prod.snd := List.mem_map_of_mem Prod.snd hp
  have hiff : p.2 ∈ check_posts_exist_batch exists? (batch.map Prod.snd) ↔
      exists? p.2 = true := by
    rw [check_posts_exist_batch, List.mem_filter]
    exact ⟨fun h => h.2, fun h => ⟨hmem, h⟩⟩
  exact decide_eq_decide.mpr (not_congr hiff)

lemma filter_fold_append (exists? : String → Bool)
    (chunks : List (List (String × String))) :
    ∀ acc : List (String × String),
      chunks.foldl
        (fun new_posts batch =>
          let existing_ids := check_posts_exist_batch exists? (batch.map Prod.snd)
          new_posts ++ batch.filter (fun p => ¬ p.2 ∈ existing_ids)) acc =
      acc ++ (chunks.map (fun batch => batch.filter (fun p => ¬ exists? p.2))).flatten := by
  induction chunks with
  | nil => intro acc; simp
  | cons batch rest ih =>
    intro acc
    rw [List.foldl_cons, List.map_cons, List.flatten_cons]
    have hstep := ih
      (acc ++ batch.filter (fun p => ¬ p.2 ∈ check_posts_exist_batch exists? (batch.map Prod.snd)))
    refine Eq.trans hstep ?_
    rw [batch_filter_eq]
    simp [List.append_assoc]

lemma filter_map_flatten (exists? : String → Bool) (bs : ℕ) (hbs : bs ≠ 0)
    (l : List (String × String)) :
    ((chunksOf bs l).map (fun batch => batch.filter (fun p => ¬ exists? p.2))).flatten =
      l.filter (fun p => ¬ exists? p.2) := by
  rw [← List.filter_flatten, chunksOf_flatten bs hbs l]

lemma filter_new_posts_batch_eq_filter (exists? : String → Bool) (bs : ℕ)
    (hbs : bs ≠ 0) (post_urls_with_ids : List (String × String)) :
    filter_new_posts_batch exists? bs post_urls_with_ids =
      post_urls_with_ids.filter (fun p => ¬ exists? p.2) := by
  rw [filter_new_posts_batch, filter_fold_append, filter_map_flatten exists? bs hbs]
  rfl

/-- **C8.** For every candidate list, every batch size `bs > 0` (the source
default is 100) and every answer function of the persistence existence
check, the batch dedup filter returns exactly the candidates whose ids the
store does not report as existing, in their original order (it equals a
single order-preserving filter of the input).  The function reads the
store only through `exists?` and returns a pure value, so it has no side
effects on the store or the candidate list. -/
theorem c8_filter_new_posts_batch (exists? : String → Bool) (bs : ℕ)
    (hbs : bs ≠ 0) (post_urls_with_ids : List (String × String)) :
    filter_new_posts_batch exists? bs post_urls_with_ids =
      post_urls_with_ids.filter (fun p => ¬ exists? p.2) :=
  filter_new_posts_batch_eq_filter exists? bs hbs post_urls_with_ids

/-- Witness for `c8_filter_new_posts_batch` with batch size 100 and a store
that reports id `b` as existing. -/
theorem c8_filter_new_posts_batch_witness :
    filter_new_posts_batch (fun i => i = "b") 100
        [("u1", "a"), ("u2", "b"), ("u3", "c")] =
      [("u1", "a"), ("u3", "c")] := by
  have h := c8_filter_new_posts_batch (fun i => i = "b") 100 (by decide)
    [("u1", "a"), ("u2", "b"), ("u3", "c")]
  rw [h]
  rfl

/-! ## Cross-run deduplication (claim C3) -/

/-- **C3 (code bug).** Ids persisted by previous runs are not reported as
existing by a fresh session: `_load_existing_ids` is a `pass`
(`local_storage.py` line 54), so `initSession` starts with an empty
`existing_ids` set no matter what previous runs saved, `check_post_exists`
answers `false` for every id, and the dedup filter keeps every candidate —
previously collected items are re-fetched.  Here the previous run
persisted id `abc`, yet the candidate with id `abc` survives the filter. -/
theorem c3_no_cross_run_dedup :
    check_post_exists (initSession ["abc"]) "abc" = false ∧
    filter_new_posts_batch (check_post_exists (initSession ["abc"])) 100
        [("https://e/u", "abc")] = [("https://e/u", "abc")] := by
  constructor
  · rfl
  · rw [filter_new_posts_batch_eq_filter _ 100 (by decide)]
    rfl

/-! ## Strategy orchestrator
(`enhanced_scraper.py`, `get_recent_posts_multi_strategy`, lines 501-612)

The strategy executions are abstracted to the number of candidates each one
adds to `all_post_urls` (its gain), which is exactly what the loop's
control flow reads.  The source computes `strategy_index` with
`strategies.index(...)`; every profile's strategy list has pairwise
distinct entries, so the index is the loop position. -/

/-- Why the orchestrator loop ended. -/
inductive StopRule where
  | volume : StopRule
  | saturation : StopRule
  deriving Repr, DecidableEq

/-- Outcome of the orchestrator loop: how many strategies executed, the
accumulated candidate count, the recorded per-strategy gains, and which
early-stop rule fired (if any). -/
structure OrchOut where
  executed : ℕ
  accumulated : ℕ
  strategy_results : List ℕ
  stop : Option StopRule
  deriving Repr, DecidableEq

/-- The strategy loop (lines 548-603).  Arguments track the loop state:
remaining strategy gains, position `idx`, accumulated candidate count,
recorded gains, and `consecutive_low_gains`. -/
def orchLoop (max_posts : ℕ) :
    List ℕ → ℕ → ℕ → List ℕ → ℕ → OrchOut
  | [], _, acc, results, _ =>
    { executed := results.length, accumulated := acc,
      strategy_results := results, stop := none }
  | g :: rest, idx, acc, results, clg =>
    -- lines 551-554: volume stop, checked before running the strategy
    if max_posts * 3 ≤ acc ∧ 2 ≤ idx then
      { executed := results.length, accumulated := acc,
        strategy_results := results, stop := some StopRule.volume }
    else
      -- lines 558-576: run the strategy, record its gain
      let acc2 := acc + g
      let results2 := results ++ [g]
      -- lines 587-590: consecutive low-gain counter
      let clg2 := if g < 5 then clg + 1 else 0
      -- lines 593-603: saturation check
      if 3 ≤ clg2 ∧ 4 ≤ results2.length then
        if max_posts * 2 ≤ acc2 then
          { executed := results2.length, accumulated := acc2,
            strategy_results := results2, stop := some StopRule.saturation }
        else orchLoop max_posts rest (idx + 1) acc2 results2 0
      else orchLoop max_posts rest (idx + 1) acc2 results2 clg2

/-- `get_recent_posts_multi_strategy` (lines 501-612): run the loop from the
empty state; the returned candidate count is truncated to `max_posts * 2`
(lines 609-612). -/
def get_recent_posts_multi_strategy (gains : List ℕ) (max_posts : ℕ) :
    OrchOut × ℕ :=
  let out := orchLoop max_posts gains 0 0 [] 0
  (out, if max_posts * 2 < out.accumulated then max_posts * 2 else out.accumulated)

/-- **C2 counterexample.** With strategy gains `[50, 40, 2, 1, 1]` and
target 20, the run does not execute all five strategies: the volume rule
(`accumulated ≥ target*3` with at least 2 strategies run, lines 551-554)
fires before the 3rd strategy, so only 2 strategies execute and the
saturation rule never runs. -/
theorem c2_counterexample :
    (get_recent_posts_multi_strategy [50, 40, 2, 1, 1] 20).1.executed = 2 ∧
    (get_recent_posts_multi_strategy [50, 40, 2, 1, 1] 20).1.executed ≠ 5 := by
  constructor <;> decide

/-- **C2** (amended). With strategy gains `[50, 40, 2, 1, 1]` against a
target of 20, the orchestrator stops via the volume rule (accumulated ≥
target×3 with at least 2 strategies already run) before the 3rd strategy:
exactly 2 strategies execute, 90 candidates accumulate, and the returned
candidate count is truncated to target×2 = 40.  The saturation rule
(`accumulated ≥ target*2` after 3 consecutive low-gain strategies) never
fires. -/
theorem c2_orchestrator_run :
    get_recent_posts_multi_strategy [50, 40, 2, 1, 1] 20 =
      ({ executed := 2, accumulated := 90, strategy_results := [50, 40],
         stop := some StopRule.volume }, 40) := by
  decide

/-! ## Keyword search (`enhanced_scraper.py`, `search_posts_by_keywords`,
lines 756-868) -/

/-- The hard-coded keyword vocabulary (lines 759-783):
`academic + life + admin + career`, 66 keywords. -/
def searchKeywords : List String :=
  ["course", "exam", "grade", "professor", "class", "assignment", "midterm", "final",
   "mat137", "mat135", "csc148", "csc165", "csc236", "sta247", "sta220", "eco101", "eco102",
   "phy131", "phy132", "che110", "bio120", "psy100", "soc100", "his103",
   "residence", "dorm", "housing", "roommate", "meal plan", "dining hall",
   "robarts", "gerstein", "bahen", "con hall", "hart house", "sid smith",
   "trinity", "victoria", "innis", "woodsworth", "new college", "university college",
   "admission", "application", "waitlist", "acceptance", "enrollment",
   "scholarship", "osap", "tuition", "financial aid", "bursary",
   "acorn", "quercus", "degree explorer", "transcript",
   "internship", "co-op", "job", "career", "interview", "resume",
   "pey", "work study", "research opportunity", "grad school"]

/-- The per-keyword quota computed at line 788:
`max(1, max(100, max_posts) // len(keywords))`.  The loop never reads this
value — it is dead code in the source. -/
def posts_per_keyword (max_posts : ℕ) : ℕ :=
  max 1 (max 100 max_posts / searchKeywords.length)

/-- Remote answer to one keyword search request: a 200 response carrying
`(permalink, id)` pairs, a 429, another non-200 status, or a raised
exception (lines 824-865). -/
inductive KResp where
  | ok : List (String × String) → KResp
  | http429 : KResp
  | httpOther : KResp
  | exc : KResp
  deriving Repr, DecidableEq

/-- A recorded pre-request sleep: the controller state and clock value when
it was computed, and the slept duration (line 821). -/
structure WaitRec where
  rc : RateState
  t : ℚ
  wait : ℚ

/-- Result of the inner per-response loop (lines 833-847). -/
structure InnerOut where
  post_urls : List (String × String)
  found : List String
  kw_new : ℕ

/-- Inner loop over one 200 response's posts (lines 833-847): stop when the
global budget `max_posts` is reached; skip ids already found by an earlier
keyword; otherwise append `(url, id)` (the url is
`https://www.reddit.com + permalink`, line 842) and count it for this
keyword. -/
def kwInnerLoop (max_posts : ℕ) :
    List (String × String) → List (String × String) → List String → ℕ → InnerOut
  | [], acc, found, kw_new => ⟨acc, found, kw_new⟩
  | (permalink, pid) :: rest, acc, found, kw_new =>
    if max_posts ≤ acc.length then ⟨acc, found, kw_new⟩
    else if pid ∈ found then kwInnerLoop max_posts rest acc found kw_new
    else kwInnerLoop max_posts rest
      (acc ++ [("https://www.reddit.com" ++ permalink, pid)]) (pid :: found) (kw_new + 1)

/-- Result of the keyword search. -/
structure SearchOut where
  post_urls : List (String × String)
  per_keyword : List ℕ
  waits : List WaitRec
  rc : RateState

/-- Outer loop over the keywords (lines 799-865).  `env` supplies, per
keyword iteration, the clock value and the remote's response.  Each
iteration first applies the two break conditions (global budget, line
800-801; `should_skip_strategy`, lines 804-806), then sleeps
`get_delay() * 2` (line 821) and dispatches on the response: 200 records a
success and runs the inner loop; 429 records a 429; any other status or a
raised exception records an other-error (lines 854-865). -/
def kwSearchLoop (max_posts : ℕ) :
    List (ℚ × KResp) → List (String × String) → List String →
      List ℕ → List WaitRec → RateState → SearchOut
  | [], acc, _, perKw, waits, rc => ⟨acc, perKw, waits, rc⟩
  | (t, resp) :: rest, acc, found, perKw, waits, rc =>
    if max_posts ≤ acc.length then ⟨acc, perKw, waits, rc⟩
    else if should_skip_strategy rc then ⟨acc, perKw, waits, rc⟩
    else
      let w : WaitRec := ⟨rc, t, get_delay t rc * 2⟩
      match resp with
      | .ok posts =>
        let inner := kwInnerLoop max_posts posts acc found 0
        kwSearchLoop max_posts rest inner.post_urls inner.found
          (perKw ++ [inner.kw_new]) (waits ++ [w]) (record_success rc)
      | .http429 =>
        kwSearchLoop max_posts rest acc found
          (perKw ++ [0]) (waits ++ [w]) (record_429_error t rc)
      | .httpOther =>
        kwSearchLoop max_posts rest acc found
          (perKw ++ [0]) (waits ++ [w]) (record_other_error rc)
      | .exc =>
        kwSearchLoop max_posts rest acc found
          (perKw ++ [0]) (waits ++ [w]) (record_other_error rc)

/-- `search_posts_by_keywords` (lines 756-868): pre-loop
`should_skip_strategy` check (lines 795-797), then the keyword loop. -/
def search_posts_by_keywords (rc : RateState) (max_posts : ℕ)
    (env : List (ℚ × KResp)) : SearchOut :=
  if should_skip_strategy rc then ⟨[], [], [], rc⟩
  else kwSearchLoop max_posts env [] [] [] [] rc

lemma kwInnerLoop_length_le (max_posts : ℕ) (posts : List (String × String)) :
    ∀ acc found kw_new, acc.length ≤ max_posts →
      (kwInnerLoop max_posts posts acc found kw_new).post_urls.length ≤ max_posts := by
  induction posts with
  | nil => intro acc found kw_new h; exact h
  | cons p rest ih =>
    intro acc found kw_new h
    obtain ⟨permalink, pid⟩ := p
    rw [kwInnerLoop]
    split_ifs with h1 h2
    · exact h
    · exact ih acc found kw_new h
    · refine ih _ _ _ ?_
      rw [List.length_append, List.length_singleton]
      omega

lemma kwInnerLoop_growth (max_posts : ℕ) (posts : List (String × String)) :
    ∀ acc found kw_new,
      (kwInnerLoop max_posts posts acc found kw_new).kw_new + acc.length =
        kw_new + (kwInnerLoop max_posts posts acc found kw_new).post_urls.length := by
  induction posts with
  | nil => intro acc found kw_new; rfl
  | cons p rest ih =>
    intro acc found kw_new
    obtain ⟨permalink, pid⟩ := p
    rw [kwInnerLoop]
    split_ifs with h1 h2
    · rfl
    · exact ih acc found kw_new
    · have h3 := ih (acc ++ [("https://www.reddit.com" ++ permalink, pid)])
        (pid :: found) (kw_new + 1)
      rw [List.length_append, List.length_singleton] at h3
      omega

lemma kwSearchLoop_invariants (max_posts : ℕ) (env : List (ℚ × KResp)) :
    ∀ acc found perKw waits rc,
      acc.length ≤ max_posts →
      (∀ c ∈ perKw, c ≤ max_posts) →
      (∀ w ∈ waits, w.wait = get_delay w.t w.rc * 2) →
      (kwSearchLoop max_posts env acc found perKw waits rc).post_urls.length ≤ max_posts ∧
      (∀ c ∈ (kwSearchLoop max_posts env acc found perKw waits rc).per_keyword,
        c ≤ max_posts) ∧
      (∀ w ∈ (kwSearchLoop max_posts env acc found perKw waits rc).waits,
        w.wait = get_delay w.t w.rc * 2) := by
  induction env with
  | nil => intro acc found perKw waits rc h1 h2 h3; exact ⟨h1, h2, h3⟩
  | cons e rest ih =>
    intro acc found perKw waits rc h1 h2 h3
    obtain ⟨t, resp⟩ := e
    rw [kwSearchLoop]
    split_ifs with hb1 hb2
    · exact ⟨h1, h2, h3⟩
    · exact ⟨h1, h2, h3⟩
    · have hw : ∀ w ∈ waits ++ [(⟨rc, t, get_delay t rc * 2⟩ : WaitRec)],
          w.wait = get_delay w.t w.rc * 2 := by
        intro w hw
        rcases List.mem_append.mp hw with h | h
        · exact h3 w h
        · rw [List.mem_singleton.mp h]
      cases resp with
      | ok posts =>
        refine ih _ _ _ _ _ (kwInnerLoop_length_le max_posts posts acc found 0 h1) ?_ hw
        intro c hc
        rcases List.mem_append.mp hc with h | h
        · exact h2 c h
        · rw [List.mem_singleton.mp h]
          have hg := kwInnerLoop_growth max_posts posts acc found 0
          have hl := kwInnerLoop_length_le max_posts posts acc found 0 h1
          omega
      | http429 =>
        refine ih _ _ _ _ _ h1 ?_ hw
        intro c hc
        rcases List.mem_append.mp hc with h | h
        · exact h2 c h
        · rw [List.mem_singleton.mp h]; omega
      | httpOther =>
        refine ih _ _ _ _ _ h1 ?_ hw
        intro c hc
        rcases List.mem_append.mp hc with h | h
        · exact h2 c h
        · rw [List.mem_singleton.mp h]; omega
      | exc =>
        refine ih _ _ _ _ _ h1 ?_ hw
        intro c hc
        rcases List.mem_append.mp hc with h | h
        · exact h2 c h
        · rw [List.mem_singleton.mp h]; omega

/-- **C5** (amended). In the keyword search, every issued request sleeps
exactly twice the rate controller's `get_delay()` before firing, and a
keyword's contribution is bounded only by the shared global budget: the
total collected never exceeds `max_posts`, so no keyword contributes more
than `max_posts`.  The per-keyword quota `posts_per_keyword` computed at
line 788 is never applied (see `c5_counterexample`). -/
theorem c5_keyword_search_bounds (rc : RateState) (max_posts : ℕ)
    (env : List (ℚ × KResp)) :
    (search_posts_by_keywords rc max_posts env).post_urls.length ≤ max_posts ∧
    (∀ c ∈ (search_posts_by_keywords rc max_posts env).per_keyword, c ≤ max_posts) ∧
    (∀ w ∈ (search_posts_by_keywords rc max_posts env).waits,
      w.wait = get_delay w.t w.rc * 2) := by
  rw [search_posts_by_keywords]
  split_ifs with h
  · refine ⟨Nat.zero_le _, ?_, ?_⟩ <;> · intro x hx; cases hx
  · exact kwSearchLoop_invariants max_posts env [] [] [] [] rc
      (Nat.zero_le _) (by intro c hc; cases hc) (by intro w hw; cases hw)

/-- Witness for `c5_keyword_search_bounds` on a concrete one-keyword run. -/
theorem c5_keyword_search_bounds_witness :
    (search_posts_by_keywords RateState.init 5 [(0, KResp.ok [("/p1", "i1")])]).post_urls.length ≤ 5 ∧
    ((1 : ℕ) ∈ (search_posts_by_keywords RateState.init 5
        [(0, KResp.ok [("/p1", "i1")])]).per_keyword → (1 : ℕ) ≤ 5) :=
  ⟨(c5_keyword_search_bounds RateState.init 5 [(0, KResp.ok [("/p1", "i1")])]).1,
   fun hm => (c5_keyword_search_bounds RateState.init 5
      [(0, KResp.ok [("/p1", "i1")])]).2.1 1 hm⟩

/-- The 31 distinct posts returned for the first keyword in the C5
counterexample run. -/
def cexPosts : List (String × String) :=
  (List.range 31).map (fun n => ("/p" ++ toString n, "i" ++ toString n))

/-- **C5 counterexample.** With `max_posts = 2000` the quota of line 788 is
`max(1, max(100, 2000) // 66) = 30`, yet when the first keyword's search
returns 31 distinct posts (and the remaining 65 keyword requests raise),
that keyword contributes 31 candidates: the quota is computed but never
enforced — only the global `max_posts` bound limits a keyword. -/
theorem c5_counterexample :
    posts_per_keyword 2000 = 30 ∧
    (search_posts_by_keywords RateState.init 2000
        ((0, KResp.ok cexPosts) :: List.replicate 65 ((0 : ℚ), KResp.exc))).per_keyword.head? =
      some 31 := by
  constructor
  · decide
  · decide

/-! ## Per-item fetch (`post_scraper.py` `fetch_json` lines 69-107, and
`enhanced_scraper.py` `scrape_post_with_comments` lines 1244-1293)

The concurrent fetch executor (`scraper.py` lines 135-221) fetches each
item through `RedditPostScraper.scrape_post`, which calls `fetch_json`
with its default `max_retries = 0`. -/

/-- Outcome of one `session.get` inside `fetch_json`: a delivered response
with its status code, a `requests` timeout, or another transport error. -/
inductive FetchResp where
  | delivered : ℕ → FetchResp
  | timeout : FetchResp
  | netError : FetchResp
  deriving Repr, DecidableEq

/-- How `fetch_json` ends. -/
inductive FetchOut where
  | success : FetchOut
  | excTimeout : FetchOut
  | excRateLimited : FetchOut
  | excHttp : ℕ → FetchOut
  | excNet : FetchOut
  | excLoopEnd : FetchOut
  deriving Repr, DecidableEq

/-- One attempt of the `fetch_json` loop body (lines 87-105): a 2xx/3xx
response returns the parsed JSON; `raise_for_status` raises on a 4xx/5xx
code, re-raised as "Rate limited" for 429 (lines 96-99); a timeout raises
"Request timeout" (lines 93-95); a transport error raises "Network error"
(lines 101-103).  `some out` means the iteration exits the loop with
outcome `out`; `none` would mean falling through to the next iteration —
no branch of the source body does so. -/
def fetch_attempt (r : FetchResp) : Option FetchOut :=
  match r with
  | .delivered code =>
    if 200 ≤ code ∧ code < 400 then some FetchOut.success
    else if code = 429 then some FetchOut.excRateLimited
    else some (FetchOut.excHttp code)
  | .timeout => some FetchOut.excTimeout
  | .netError => some FetchOut.excNet

/-- The `for attempt in range(max_retries + 1)` loop of `fetch_json`
(line 86), returning the outcome and the number of requests made.
`resp n` is the response the remote would give to the `n`-th request.
Falling off the loop end raises at line 107. -/
def fetchJsonGo (resp : ℕ → FetchResp) : ℕ → ℕ → FetchOut × ℕ
  | attempt, 0 => (FetchOut.excLoopEnd, attempt)
  | attempt, rem + 1 =>
    match fetch_attempt (resp attempt) with
    | some out => (out, attempt + 1)
    | none => fetchJsonGo resp (attempt + 1) rem

/-- `RedditPostScraper.fetch_json` (lines 69-107). -/
def fetch_json (resp : ℕ → FetchResp) (max_retries : ℕ) : FetchOut × ℕ :=
  fetchJsonGo resp 0 (max_retries + 1)

lemma fetch_attempt_exits (r : FetchResp) : ∃ out, fetch_attempt r = some out := by
  cases r with
  | delivered code =>
    rw [fetch_attempt]
    split_ifs <;> exact ⟨_, rfl⟩
  | timeout => exact ⟨_, rfl⟩
  | netError => exact ⟨_, rfl⟩

/-- The response to one `session.get` in `scrape_post_with_comments`: a
2xx response with a well-formed two-listing body carrying the post
payload, a non-2xx status code, or a raised timeout/transport error. -/
inductive PResp where
  | okResp : PostPayload → PResp
  | statusResp : ℕ → PResp
  | excConn : PResp
  deriving Repr, DecidableEq

/-- `enhanced_scraper.py` carries its own module-local
`SmartRateController` (lines 27-136).  Its `record_429_error` (lines
58-76), `rsBump`/`rsExit` parts of `record_success` (lines 43-52), the
cooldown methods and the refresh-flag methods are textually identical to
`core/rate_limiter.py` and are reused; the pieces that differ — the
`__init__` delays of 1.0 (lines 30-31) and the `record_success` decay
constants (lines 54-56) — are embedded below with an `E` suffix. -/
def RateState.initE : RateState :=
  { RateState.init with base_delay := 1, current_delay := 1 }

/-- Module-local `record_success` lines 54-56: decay the delay by 0.95
when the streak exceeds 10 and the delay is above 0.5 (guard tested before
the multiplication). -/
def rsDecayE (s : RateState) : RateState :=
  if 10 < s.success_streak ∧ (1/2 : ℚ) < s.current_delay then
    { s with current_delay := s.current_delay * (19/20) }
  else s

/-- The module-local `SmartRateController.record_success`
(`enhanced_scraper.py` lines 43-56). -/
def record_success_e (s : RateState) : RateState :=
  rsDecayE (rsExit (rsBump s))

/-- `SmartRateController.mark_session_refreshed` (`enhanced_scraper.py`
lines 121-123, identical in `core/rate_limiter.py` lines 106-108). -/
def mark_session_refreshed (s : RateState) : RateState :=
  { s with session_refresh_needed := false }

/-- `SmartRateController.needs_session_refresh` (`enhanced_scraper.py`
lines 117-119). -/
def needs_session_refresh (s : RateState) : Bool :=
  s.session_refresh_needed

/-- `EnhancedUofTScraper.handle_rate_limit_intelligently` (lines 283-307):
when the controller requests a session refresh, `refresh_session()`
(lines 248-275) replaces the HTTP session and headers and calls
`mark_session_refreshed` (lines 274-275), clearing
`session_refresh_needed` — the method's only effect on the controller
state.  The rest of the method sleeps (cooldown wait or regular delay)
and simulates browsing, touching no controller field. -/
def handle_rate_limit_intelligently (s : RateState) : RateState :=
  if needs_session_refresh s then mark_session_refreshed s else s

/-- `EnhancedUofTScraper.scrape_post_with_comments` (lines 1244-1293),
returning `(parsed post, controller state, error_count, requests made)`.
`r1` and `r2` are the remote's answers to the first request and (when
reached) the retry.  A first 429 records the error (line 1253), runs
`handle_rate_limit_intelligently` (line 1254, clearing the refresh flag
that `record_429_error` may just have set when entering cooldown), and
retries once (line 1257); a second 429 abandons the item (lines
1258-1260) without touching `error_count`.  Any raised exception —
timeout, transport, or the `raise_for_status` of a non-2xx code (reached
after the unconditional `record_success` of line 1263, the module-local
variant) — is caught at line 1290 and bumps `error_count`.  No path makes
a third request. -/
def scrape_post_with_comments (rc : RateState) (error_count : ℕ) (t : ℚ)
    (r1 r2 : PResp) : Option PostPayload × RateState × ℕ × ℕ :=
  match r1 with
  | .excConn => (none, rc, error_count + 1, 1)
  | .okResp p => (some p, record_success_e rc, error_count, 1)
  | .statusResp c =>
    if c = 429 then
      let rc1 := handle_rate_limit_intelligently (record_429_error t rc)
      match r2 with
      | .excConn => (none, rc1, error_count + 1, 2)
      | .okResp p => (some p, record_success_e rc1, error_count, 2)
      | .statusResp c2 =>
        if c2 = 429 then (none, rc1, error_count, 2)
        else (none, record_success_e rc1, error_count + 1, 2)
    else (none, record_success_e rc, error_count + 1, 1)

/-- **C6 counterexample.** In the concurrent fetch executor the per-item
fetch is `fetch_json` with its default `max_retries = 0`: a 429 response
makes exactly one request and raises "Rate limited" immediately — the 429
is not retried there (the source comment at line 98 says "Rate limit =
skip immediately").  The claimed one-retry-on-429 does not hold for the
executor's fetch. -/
theorem c6_counterexample :
    fetch_json (fun _ => FetchResp.delivered 429) 0 =
      (FetchOut.excRateLimited, 1) := by
  rfl

/-- **C6** (amended). Per-item fetch retry behaviour: the concurrent
executor's `fetch_json` makes exactly one request whatever `max_retries`
and whatever the response — a 429, a timeout and a transport error all
raise immediately with no retry.  The one-retry-on-429 policy lives in the
sequential `scrape_post_with_comments` path: a first 429 leads to exactly
one retry (two requests), a second 429 abandons the item leaving
`error_count` untouched, with the controller state as left by
`record_429_error` followed by `handle_rate_limit_intelligently` (which
clears the session-refresh flag), while a timeout or transport error
skips the item immediately after a single request and increments the
error counter; `scrape_post_with_comments` never makes a third request. -/
theorem c6_fetch_retry_policy (resp : ℕ → FetchResp) (max_retries : ℕ)
    (rc : RateState) (error_count : ℕ) (t : ℚ) (r2 : PResp) :
    (fetch_json resp max_retries).2 = 1 ∧
    (scrape_post_with_comments rc error_count t (PResp.statusResp 429) r2).2.2.2 = 2 ∧
    (scrape_post_with_comments rc error_count t (PResp.statusResp 429)
        (PResp.statusResp 429)) =
      (none, handle_rate_limit_intelligently (record_429_error t rc),
        error_count, 2) ∧
    scrape_post_with_comments rc error_count t PResp.excConn r2 =
      (none, rc, error_count + 1, 1) := by
  refine ⟨?_, ?_, ?_, ?_⟩
  · obtain ⟨out, hout⟩ := fetch_attempt_exits (resp 0)
    rw [fetch_json, fetchJsonGo, hout]
  · rw [scrape_post_with_comments, if_pos rfl]
    cases r2 with
    | okResp p => rfl
    | statusResp c2 =>
      by_cases h : c2 = 429
      · subst h; rfl
      · simp only [if_neg h]
    | excConn => rfl
  · rfl
  · rfl

/-- Witness for `c6_fetch_retry_policy` at a concrete run, from the
module-local controller's initial state. -/
theorem c6_fetch_retry_policy_witness :
    (fetch_json (fun _ => FetchResp.timeout) 0).2 = 1 ∧
    (scrape_post_with_comments RateState.initE 0 0 (PResp.statusResp 429)
        (PResp.statusResp 429)).2.2.2 = 2 ∧
    (scrape_post_with_comments RateState.initE 0 0 (PResp.statusResp 429)
        (PResp.statusResp 429)) =
      (none, handle_rate_limit_intelligently (record_429_error 0 RateState.initE),
        0, 2) ∧
    scrape_post_with_comments RateState.initE 0 0 PResp.excConn
        (PResp.statusResp 429) = (none, RateState.initE, 1, 1) :=
  c6_fetch_retry_policy (fun _ => FetchResp.timeout) 0 RateState.initE 0 0
    (PResp.statusResp 429)

/-! ## Database save with retries (`enhanced_scraper.py`, `save_to_database`,
lines 1322-1361) -/

/-- The `db_record` dict built at lines 1327-1335.  Its keys are
`post_id`, `title`, `author`, `score`, `num_comments`, `created_utc` and
`data` — there is no `id` key, so `save_post`'s `post_data.get('id')`
(line 58 of `local_storage.py`) yields `None` on it.  The model keeps the
payload fields and records the missing `id` key as `none`. -/
def db_record (p : PostPayload) : PostPayload :=
  { p with id := none }

/-- The `for attempt in range(max_retries)` loop of `save_to_database`
(lines 1324-1361), over the list of attempt indices.  Each attempt calls
`local_data_manager.save_post(db_record)` (line 1339, return value
discarded), then evaluates `if result.data:` (line 1341) — but `result` is
never assigned anywhere in the file, so a `NameError` is raised and caught
by `except Exception` (line 1347); its message does not contain the
duplicate-key marker tested at line 1351, so the attempt falls through to
the retry wait of `(attempt + 1) * 2` seconds (line 1358) or, on the last
attempt, returns `False` (line 1361).  Returns `(return value, store,
waits)`; the return value is `none` when the loop body never runs
(`max_retries = 0`), modelling Python's implicit `None`. -/
def stdLoop (rec : PostPayload) (max_retries : ℕ) :
    Store → List ℕ → Option Bool × Store × List ℕ
  | st, [] => (none, st, [])
  | st, attempt :: rest =>
    let st1 := (save_post st rec).2
    if attempt < max_retries - 1 then
      let r := stdLoop rec max_retries st1 rest
      (r.1, r.2.1, (attempt + 1) * 2 :: r.2.2)
    else (some false, st1, [])

/-- `EnhancedUofTScraper.save_to_database` (lines 1322-1361) with its
default `max_retries = 3`. -/
def save_to_database (st : Store) (p : PostPayload) (max_retries : ℕ) :
    Option Bool × Store × List ℕ :=
  stdLoop (db_record p) max_retries st (List.range max_retries)

/-- **C4 (code bug).** For every store state and every post payload,
`save_to_database` returns `False` after waiting 2s and 4s, and leaves the
store unchanged: the `db_record` dict has no `id` key so the local
`save_post` is a no-op returning `False`, and line 1341 reads the
undefined name `result` (never assigned in the file), so every attempt
raises `NameError` — the function can never return `True`, neither on a
successful save nor on a duplicate, and the claimed 6s third wait never
happens (the last attempt returns instead of sleeping). -/
theorem c4_save_to_database_always_fails (st : Store) (p : PostPayload) :
    save_to_database st p 3 = (some false, st, [2, 4]) := by
  rfl

/-! ## Concurrent fetch executor (`scraper.py`, `RedditScraper.scrape`,
lines 133-221)

All tasks are submitted to a `ThreadPoolExecutor(max_workers=5)` upfront
(lines 171-177).  The executor model is an interleaving small-step system:
`start` is the pool assigning a queued future to a free worker (the
`max_workers` bound is the pool's contract; the started task immediately
evaluates the entry guard `if self.scraped_count >= max_posts: return None`
of lines 142-143, recorded in `willFetch`); `finishSuccess` is the main
loop consuming a successful result (lines 189-191, `scraped_count += 1`);
`finishNone` is a task completing without a successful result;
`mainCancel` is the main loop observing `scraped_count >= max_posts` and
cancelling all not-yet-started futures (lines 197-201). -/

/-- Executor configuration: the worker bound (5 at line 176) and the
target `max_posts`. -/
structure ExecCfg where
  max_workers : ℕ
  max_posts : ℕ
  deriving Repr, DecidableEq

/-- A task being executed: its index and whether its entry guard (lines
142-143) let it proceed to the fetch. -/
structure ExecTask where
  task_id : ℕ
  willFetch : Bool
  deriving Repr, DecidableEq

/-- Executor state: futures not yet started, tasks running on workers,
completed task ids, cancelled task ids, and the shared `scraped_count`. -/
structure ExecState where
  pending : List ℕ
  running : List ExecTask
  finished : List ℕ
  cancelled : List ℕ
  scraped_count : ℕ
  deriving Repr, DecidableEq

/-- One scheduling step of the executor run. -/
inductive ExecStep (cfg : ExecCfg) : ExecState → ExecState → Prop where
  | start (s : ExecState) (i : ℕ) (rest : List ℕ)
      (hp : s.pending = i :: rest)
      (hw : s.running.length < cfg.max_workers) :
      ExecStep cfg s { s with pending := rest
                              running := ⟨i, decide (s.scraped_count < cfg.max_posts)⟩ :: s.running }
  | finishSuccess (s : ExecState) (tk : ExecTask)
      (hm : tk ∈ s.running) (hf : tk.willFetch = true) :
      ExecStep cfg s { s with running := s.running.erase tk
                              finished := tk.task_id :: s.finished
                              scraped_count := s.scraped_count + 1 }
  | finishNone (s : ExecState) (tk : ExecTask) (hm : tk ∈ s.running) :
      ExecStep cfg s { s with running := s.running.erase tk
                              finished := tk.task_id :: s.finished }
  | mainCancel (s : ExecState) (hreach : cfg.max_posts ≤ s.scraped_count) :
      ExecStep cfg s { s with pending := [], cancelled := s.pending ++ s.cancelled }

/-- The initial executor state for `n` candidates: all tasks submitted,
none started (lines 171-177). -/
def ExecInit (n : ℕ) : ExecState :=
  ⟨List.range n, [], [], [], 0⟩

/-- States reachable by the executor run. -/
inductive ExecReach (cfg : ExecCfg) (n : ℕ) : ExecState → Prop where
  | init : ExecReach cfg n (ExecInit n)
  | step {s s' : ExecState} :
      ExecReach cfg n s → ExecStep cfg s s' → ExecReach cfg n s'

lemma execStep_running_bound (cfg : ExecCfg) (s s' : ExecState)
    (hstep : ExecStep cfg s s') (h : s.running.length ≤ cfg.max_workers) :
    s'.running.length ≤ cfg.max_workers := by
  cases hstep with
  | start i rest hp hw =>
    show (ExecTask.mk i _ :: s.running).length ≤ cfg.max_workers
    rw [List.length_cons]
    omega
  | finishSuccess tk hm hf =>
    show (s.running.erase tk).length ≤ cfg.max_workers
    rw [List.length_erase_of_mem hm]
    omega
  | finishNone tk hm =>
    show (s.running.erase tk).length ≤ cfg.max_workers
    rw [List.length_erase_of_mem hm]
    omega
  | mainCancel hreach => exact h

/-- **C9** (amended). In the executor model: (1) at no point are more than
`max_workers` tasks simultaneously running, in every reachable state; (2)
a task that starts in a state where `scraped_count` has already reached
`max_posts` never proceeds to fetch (its entry guard makes it return
immediately) — but such a task can still start, see `c9_counterexample`;
(3) no step ever adds new pending work, so once the main loop's cancel has
emptied the pending queue no further task can start. -/
theorem c9_executor_bounds (cfg : ExecCfg) (n : ℕ) :
    (∀ s : ExecState, ExecReach cfg n s → s.running.length ≤ cfg.max_workers) ∧
    (∀ s s' : ExecState, ExecStep cfg s s' → cfg.max_posts ≤ s.scraped_count →
      ∀ tk : ExecTask, tk ∈ s'.running → tk ∉ s.running → tk.willFetch = false) ∧
    (∀ s s' : ExecState, ExecStep cfg s s' → s.pending = [] → s'.pending = []) := by
  refine ⟨?_, ?_, ?_⟩
  · intro s hreach
    induction hreach with
    | init => exact Nat.zero_le _
    | step hr hstep ih => exact execStep_running_bound cfg _ _ hstep ih
  · intro s s' hstep htarget tk hmem hnew
    cases hstep with
    | start i rest hp hw =>
      rcases List.mem_cons.mp hmem with h | h
      · rw [h]
        show decide (s.scraped_count < cfg.max_posts) = false
        simpa using htarget
      · exact absurd h hnew
    | finishSuccess tk2 hm hf =>
      exact absurd (List.mem_of_mem_erase hmem) hnew
    | finishNone tk2 hm =>
      exact absurd (List.mem_of_mem_erase hmem) hnew
    | mainCancel hreach => exact absurd hmem hnew
  · intro s s' hstep hempty
    cases hstep with
    | start i rest hp hw => rw [hempty] at hp; cases hp
    | finishSuccess tk hm hf => exact hempty
    | finishNone tk hm => exact hempty
    | mainCancel hreach => rfl

/-- Executor configuration of the concurrency scenario: worker bound 5,
target 1 successful fetch, 2 candidates. -/
def cexCfg : ExecCfg := ⟨5, 1⟩

/-- Trace state after task 0 started. -/
def cexS1 : ExecState := ⟨[1], [⟨0, true⟩], [], [], 0⟩

/-- Trace state after task 0 succeeded: the target is reached. -/
def cexS2 : ExecState := ⟨[1], [], [0], [], 1⟩

/-- Trace state after the pool starts task 1 anyway (before the main loop
cancels); its entry guard makes it a no-op. -/
def cexS3 : ExecState := ⟨[], [⟨1, false⟩], [0], [], 1⟩

/-- **C9 counterexample.** "Once `scraped_count` reaches `max_posts` no
further tasks are started" fails: from the reachable state `cexS2` where
the target (1) is already reached, the pool can still start the pending
task 1 — the main loop only cancels pending futures after it observes the
completed result, and a worker can pick up the next queued future before
that.  (The started task does not fetch: its `willFetch` guard is false.) -/
theorem c9_counterexample :
    ExecReach cexCfg 2 cexS2 ∧
    cexCfg.max_posts ≤ cexS2.scraped_count ∧
    ExecStep cexCfg cexS2 cexS3 ∧
    cexS3.running = [⟨1, false⟩] := by
  have h1 : ExecStep cexCfg (ExecInit 2) cexS1 :=
    ExecStep.start (ExecInit 2) 0 [1] (by decide) (by decide)
  have h2 : ExecStep cexCfg cexS1 cexS2 :=
    ExecStep.finishSuccess cexS1 ⟨0, true⟩ (by decide) rfl
  have h3 : ExecStep cexCfg cexS2 cexS3 :=
    ExecStep.start cexS2 1 [] (by decide) (by decide)
  exact ⟨ExecReach.step (ExecReach.step ExecReach.init h1) h2, by decide, h3, rfl⟩

/-- Witness for `c9_executor_bounds` on the concrete trace. -/
theorem c9_executor_bounds_witness :
    (ExecInit 2).running.length ≤ cexCfg.max_workers ∧
    (⟨1, false⟩ : ExecTask).willFetch = false ∧
    cexS3.pending = [] := by
  have hstep : ExecStep cexCfg cexS2 cexS3 :=
    ExecStep.start cexS2 1 [] (by decide) (by decide)
  have hcancel : ExecStep cexCfg cexS3 cexS3 :=
    ExecStep.mainCancel cexS3 (by decide)
  refine ⟨(c9_executor_bounds cexCfg 2).1 (ExecInit 2) ExecReach.init, ?_, ?_⟩
  · exact (c9_executor_bounds cexCfg 2).2.1 cexS2 cexS3 hstep (by decide)
      ⟨1, false⟩ (by decide) (by decide)
  · exact (c9_executor_bounds cexCfg 2).2.2 cexS3 cexS3 hcancel rfl
